import Mathlib

/-!
Verification of the tron-proxy JSON-RPC dispatcher (src/main.go).

The Go code is shallowly embedded: every handler becomes a pure Lean
function, and the ambient I/O (outbound HTTP posts, trace-file reads) is
supplied through an explicit environment of oracles.  JSON values decoded
by Go encoding/json into interface values are modelled by the inductive
type Json below; Go represents a decoded JSON null as a nil interface
value, so Json.null plays both roles (an absent field and an explicit
null decode to the same Go value).  JSON numbers are modelled as the
integer literals the proxy manipulates.  Field-name matching is modelled
as exact (Go additionally accepts case-insensitive matches; nothing here
depends on that).
-/

namespace TronProxy

inductive Json where
  | null : Json
  | bool : Bool → Json
  | num : Int → Json
  | str : String → Json
  | arr : List Json → Json
  | obj : List (String × Json) → Json

def Json.isNull : Json → Bool
  | .null => true
  | _ => false

def Json.isNum : Json → Bool
  | .num _ => true
  | _ => false

/-- Field lookup in a decoded JSON object.  With duplicate keys Go
encoding/json keeps the last occurrence, so the lookup prefers later
entries. -/
def lookupField : List (String × Json) → String → Option Json
  | [], _ => none
  | (k, v) :: rest, key =>
    match lookupField rest key with
    | some v2 => some v2
    | none => if k = key then some v else none

/-- JSONRPCRequest from src/main.go lines 14-19.  ID has Go type
interface with Json.null standing for nil (absent or explicit null). -/
structure JSONRPCRequest where
  jsonrpc : String
  method : String
  params : List Json
  id : Json

/-- JSONRPCResponse from src/main.go lines 21-26.  Result and Error are
Go interface values; Json.null stands for nil, which the omitempty tags
drop on encoding. -/
structure JSONRPCResponse where
  jsonrpc : String
  id : Json
  result : Json
  error : Json

/-- Go json.Unmarshal of a JSON value into a string-typed struct field:
absent or null leaves the zero value, a string sets it, anything else
errors. -/
def unmarshalStringField (fields : List (String × Json)) (key : String) :
    Option String :=
  match lookupField fields key with
  | none => some ""
  | some .null => some ""
  | some (.str s) => some s
  | some _ => none

/-- Go json.Unmarshal into the params field (a slice of raw messages):
absent or null leaves nil, an array keeps its raw elements, anything else
errors. -/
def unmarshalParamsField (fields : List (String × Json)) :
    Option (List Json) :=
  match lookupField fields "params" with
  | none => some []
  | some .null => some []
  | some (.arr xs) => some xs
  | some _ => none

/-- Go json.Unmarshal into an interface-typed struct field: absent gives
nil, otherwise the decoded value (null decodes to nil). -/
def interfaceField (fields : List (String × Json)) (key : String) : Json :=
  match lookupField fields key with
  | none => Json.null
  | some v => v

/-- Go json.Unmarshal of a JSON value into JSONRPCRequest: null is a
no-op on the zero struct, an object decodes field by field, anything else
errors. -/
def decodeRequest : Json → Option JSONRPCRequest
  | .null => some { jsonrpc := "", method := "", params := [], id := .null }
  | .obj fields => do
      let jv ← unmarshalStringField fields "jsonrpc"
      let mv ← unmarshalStringField fields "method"
      let pv ← unmarshalParamsField fields
      some { jsonrpc := jv, method := mv, params := pv,
             id := interfaceField fields "id" }
  | _ => none

/-- Go json.Unmarshal of a JSON value into JSONRPCResponse. -/
def decodeResponseVal : Json → Option JSONRPCResponse
  | .null => some { jsonrpc := "", id := .null, result := .null,
                    error := .null }
  | .obj fields => do
      let jv ← unmarshalStringField fields "jsonrpc"
      some { jsonrpc := jv, id := interfaceField fields "id",
             result := interfaceField fields "result",
             error := interfaceField fields "error" }
  | _ => none

/-- A reply body from an upstream service: none models bytes that are not
valid JSON at all. -/
def Body := Option Json

/-- Go json.Unmarshal of a reply body into JSONRPCResponse. -/
def decodeResponseBody : Option Json → Option JSONRPCResponse
  | none => none
  | some j => decodeResponseVal j

def decodeResponseList : List Json → Option (List JSONRPCResponse)
  | [] => some []
  | j :: rest => do
      let r ← decodeResponseVal j
      let rs ← decodeResponseList rest
      some (r :: rs)

/-- Go json.Unmarshal of a reply body into a slice of JSONRPCResponse:
null leaves the nil slice, an array decodes element-wise, anything else
errors. -/
def decodeResponseArray : Option Json → Option (List JSONRPCResponse)
  | none => none
  | some .null => some []
  | some (.arr xs) => decodeResponseList xs
  | some _ => none

/-- Outcome of an outbound http.Post: a transport error, or a reply whose
body may or may not be valid JSON. -/
inductive PostResult where
  | transportErr : String → PostResult
  | reply : Option Json → PostResult

/-- Outcome of os.ReadFile followed by a JSON decode of the bytes:
the read itself can fail, or the bytes can fail to parse as JSON. -/
inductive ReadResult where
  | readErr : ReadResult
  | content : Option Json → ReadResult

/-- The ambient I/O of the proxy, as oracles.  postSingle models posting
the re-marshalled request to the JSON-RPC endpoint (forwardAndReturn),
postBatch models posting the original array (forwardBatchToJSONRPC),
restPost models posting the num payload to the REST endpoint, and
readFile models os.ReadFile plus the JSON parse of the bytes. -/
structure Env where
  postSingle : JSONRPCRequest → PostResult
  postBatch : List Json → PostResult
  restPost : Int → PostResult
  readFile : String → ReadResult

def traceDir : String := "/project/trace"

def tracePath (txId : String) : String := traceDir ++ "/" ++ txId ++ ".json"

/-- jsonError from src/main.go lines 387-396. -/
def jsonError (id : Json) (code : Int) (msg : String) : JSONRPCResponse :=
  { jsonrpc := "2.0", id := id, result := .null,
    error := Json.obj [("code", Json.num code), ("message", Json.str msg)] }

/-- createErrorResponsesForBatch from src/main.go lines 398-404. -/
def createErrorResponsesForBatch (reqs : List JSONRPCRequest) (code : Int)
    (msg : String) : List JSONRPCResponse :=
  reqs.map (fun r => jsonError r.id code msg)

/-- Go json.Unmarshal of a raw param into an int64: a number sets it,
null is a no-op leaving 0, anything else errors. -/
def unmarshalInt64 : Json → Option Int
  | .num n => some n
  | .null => some 0
  | _ => none

/-- Go json.Unmarshal of a raw param into a string: a string sets it,
null is a no-op leaving the empty string, anything else errors. -/
def unmarshalGoString : Json → Option String
  | .str s => some s
  | .null => some ""
  | _ => none

/-- TronTransactionInfo from src/main.go lines 188-193.  The
internal-transactions slice keeps raw elements; none models the nil
slice, which re-encodes as null. -/
structure TronTransactionInfo where
  internalTransactions : Option (List Json)
  id : String
  blockNumber : Int
  transactionHash : String

/-- Go json.Unmarshal into the internal-transactions raw-slice field. -/
def unmarshalRawSliceField (fields : List (String × Json)) (key : String) :
    Option (Option (List Json)) :=
  match lookupField fields key with
  | none => some none
  | some .null => some none
  | some (.arr xs) => some (some xs)
  | some _ => none

/-- Go json.Unmarshal into an int64-typed struct field. -/
def unmarshalIntField (fields : List (String × Json)) (key : String) :
    Option Int :=
  match lookupField fields key with
  | none => some 0
  | some .null => some 0
  | some (.num n) => some n
  | some _ => none

/-- Go json.Unmarshal of one JSON value into TronTransactionInfo. -/
def decodeTronTxInfo : Json → Option TronTransactionInfo
  | .null => some { internalTransactions := none, id := "",
                    blockNumber := 0, transactionHash := "" }
  | .obj fields => do
      let it ← unmarshalRawSliceField fields "internal_transactions"
      let idv ← unmarshalStringField fields "id"
      let bn ← unmarshalIntField fields "blockNumber"
      let th ← unmarshalStringField fields "transactionHash"
      some { internalTransactions := it, id := idv, blockNumber := bn,
             transactionHash := th }
  | _ => none

def decodeTronTxInfoList : List Json → Option (List TronTransactionInfo)
  | [] => some []
  | j :: rest => do
      let t ← decodeTronTxInfo j
      let ts ← decodeTronTxInfoList rest
      some (t :: ts)

/-- Go json.Unmarshal of the REST reply body into a slice of
TronTransactionInfo. -/
def decodeTronTxInfoArray : Option Json → Option (List TronTransactionInfo)
  | none => none
  | some .null => some []
  | some (.arr xs) => decodeTronTxInfoList xs
  | some _ => none

/-- Go json.Marshal of one TronTransactionInfo: the four struct fields in
declaration order, a nil raw slice encoding as null. -/
def encodeTronTxInfo (t : TronTransactionInfo) : Json :=
  Json.obj
    [("internal_transactions",
      match t.internalTransactions with
      | none => Json.null
      | some xs => Json.arr xs),
     ("id", Json.str t.id),
     ("blockNumber", Json.num t.blockNumber),
     ("transactionHash", Json.str t.transactionHash)]

/-- handleGetTransactionInfoByBlockNum from src/main.go lines 195-230. -/
def handleGetTransactionInfoByBlockNum (env : Env) (req : JSONRPCRequest) :
    JSONRPCResponse :=
  match req.params with
  | [] => jsonError req.id (-32602) "Invalid params"
  | p :: _ =>
    match unmarshalInt64 p with
    | none => jsonError req.id (-32602)
        "Invalid params: must be integer block number"
    | some blockId =>
      match env.restPost blockId with
      | .transportErr e => jsonError req.id (-32603)
          ("Internal error: " ++ e)
      | .reply body =>
        match decodeTronTxInfoArray body with
        | none => jsonError req.id (-32603)
            "Invalid response from TronNode REST"
        | some infos =>
          { jsonrpc := "2.0", id := req.id,
            result := Json.arr (infos.map encodeTronTxInfo),
            error := .null }

/-- handleDebugTransactionTrace from src/main.go lines 232-259. -/
def handleDebugTransactionTrace (env : Env) (req : JSONRPCRequest) :
    JSONRPCResponse :=
  match req.params with
  | [] => jsonError req.id (-32602) "Invalid params"
  | p :: _ =>
    match unmarshalGoString p with
    | none => jsonError req.id (-32602) "Invalid params: must be string TxId"
    | some txId =>
      match env.readFile (tracePath txId) with
      | .readErr => jsonError req.id (-32603) "cannot read trace file"
      | .content none => jsonError req.id (-32603)
          "Invalid JSON in trace file"
      | .content (some traceJson) =>
        { jsonrpc := "2.0", id := req.id, result := traceJson,
          error := .null }

/-- forwardAndReturn from src/main.go lines 261-280. -/
def forwardAndReturn (env : Env) (req : JSONRPCRequest) : JSONRPCResponse :=
  match env.postSingle req with
  | .transportErr e => jsonError req.id (-32603) ("Internal error: " ++ e)
  | .reply body =>
    match decodeResponseBody body with
    | none => jsonError req.id (-32603)
        "Invalid response from forwarded service"
    | some forwardResp => { forwardResp with id := req.id }

/-- handleBatchGetTransactionInfo from src/main.go lines 282-288: a
sequential loop filling one slot per request. -/
def handleBatchGetTransactionInfo (env : Env) (reqs : List JSONRPCRequest) :
    List JSONRPCResponse :=
  reqs.map (handleGetTransactionInfoByBlockNum env)

/-- The body of the per-index goroutine in handleBatchDebugTransactionTrace,
src/main.go lines 297-328, writing one response slot. -/
def traceSlot (env : Env) (req : JSONRPCRequest) : JSONRPCResponse :=
  match req.params with
  | [] => jsonError req.id (-32602) "Invalid params"
  | p :: _ =>
    match unmarshalGoString p with
    | none => jsonError req.id (-32602) "Invalid params: must be string TxId"
    | some txId =>
      match env.readFile (tracePath txId) with
      | .readErr => jsonError req.id (-32603) "cannot read trace file"
      | .content none => jsonError req.id (-32603)
          "Invalid JSON in trace file"
      | .content (some traceJson) =>
        { jsonrpc := "2.0", id := req.id, result := traceJson,
          error := .null }

/-- handleBatchDebugTransactionTrace from src/main.go lines 290-333: one
task per index, each writing only its own preallocated slot, joined
before returning, so the result is the element-wise map of traceSlot. -/
def handleBatchDebugTransactionTrace (env : Env)
    (reqs : List JSONRPCRequest) : List JSONRPCResponse :=
  reqs.map (traceSlot env)

/-- forwardBatchToJSONRPC from src/main.go lines 335-359. -/
def forwardBatchToJSONRPC (env : Env) (reqs : List JSONRPCRequest)
    (originalArr : List Json) : List JSONRPCResponse :=
  match env.postBatch originalArr with
  | .transportErr e =>
    createErrorResponsesForBatch reqs (-32603) ("Internal error: " ++ e)
  | .reply body =>
    match decodeResponseArray body with
    | some batchResp => batchResp
    | none =>
      match decodeResponseBody body with
      | some singleResp =>
        if singleResp.id.isNull then
          createErrorResponsesForBatch reqs (-32603)
            "Invalid response from forwarded service"
        else [singleResp]
      | none =>
        createErrorResponsesForBatch reqs (-32603)
          "Invalid response from forwarded service"

/-- handleSingleRequest from src/main.go lines 171-186. -/
def handleSingleRequest (env : Env) (req : JSONRPCRequest) :
    JSONRPCResponse :=
  if req.jsonrpc ≠ "2.0" then jsonError req.id (-32600) "Invalid Request"
  else
    match req.method with
    | "debug_traceBlockByHash" => handleGetTransactionInfoByBlockNum env req
    | "eth_debugTransactionTrace" => handleDebugTransactionTrace env req
    | _ => forwardAndReturn env req

/-- parseSingleRequest from src/main.go lines 137-144: re-marshal the
decoded object and unmarshal it into the struct. -/
def parseSingleRequest (fields : List (String × Json)) :
    Option JSONRPCRequest :=
  decodeRequest (Json.obj fields)

/-- The loop of parseBatchRequests, src/main.go lines 149-164: each
element either decodes into a request or contributes one parse-error
response, in input order. -/
def parseBatchLoop : List Json →
    List JSONRPCRequest × List JSONRPCResponse
  | [] => ([], [])
  | elem :: rest =>
    let acc := parseBatchLoop rest
    match decodeRequest elem with
    | some req => (req :: acc.1, acc.2)
    | none =>
      (acc.1,
       { jsonrpc := "2.0", id := Json.null,
         result := .null,
         error := Json.obj
           [("code", Json.num (-32700)),
            ("message", Json.str "Parse error: invalid JSON in batch")] }
         :: acc.2)

/-- parseBatchRequests from src/main.go lines 146-169: when any element
failed, the decoded requests are discarded and only the error responses
are returned. -/
def parseBatchRequests (arr : List Json) :
    List JSONRPCRequest × List JSONRPCResponse :=
  let acc := parseBatchLoop arr
  if acc.2.isEmpty then (acc.1, []) else ([], acc.2)

/-- What handleJSONRPC writes back: nothing (notification), a single
response object, or an array of responses. -/
inductive HttpOut where
  | empty : HttpOut
  | single : JSONRPCResponse → HttpOut
  | batch : List JSONRPCResponse → HttpOut

/-- sendJSONRPCResponse from src/main.go lines 361-367: a nil ID
suppresses the body entirely. -/
def sendJSONRPCResponse (resp : JSONRPCResponse) : HttpOut :=
  if resp.id.isNull then .empty else .single resp

/-- sendBatchResponse from src/main.go lines 369-372. -/
def sendBatchResponse (responses : List JSONRPCResponse) : HttpOut :=
  .batch responses

/-- The batch arm of handleJSONRPC, src/main.go lines 86-129.  The
empty-list fallback for the method switch is unreachable: a non-empty
input with no parse errors always yields a non-empty request list (Go
would panic there). -/
def handleBatch (env : Env) (v : List Json) : HttpOut :=
  if v.isEmpty then .batch []
  else
    let acc := parseBatchRequests v
    if ¬ acc.2.isEmpty then sendBatchResponse acc.2
    else
      match acc.1 with
      | [] => .batch []
      | r0 :: _ =>
        if acc.1.all (fun r => r.method == r0.method) then
          match r0.method with
          | "debug_traceBlockByHash" =>
            sendBatchResponse (handleBatchGetTransactionInfo env acc.1)
          | "eth_debugTransactionTrace" =>
            sendBatchResponse (handleBatchDebugTransactionTrace env acc.1)
          | _ => sendBatchResponse (forwardBatchToJSONRPC env acc.1 v)
        else
          sendBatchResponse
            (createErrorResponsesForBatch acc.1 (-32601)
              "Mixed methods not supported")

/-- handleJSONRPC from src/main.go lines 53-135, after the body has been
read; the input none models bytes that fail the envelope JSON parse. -/
def handleJSONRPC (env : Env) (body : Option Json) : HttpOut :=
  match body with
  | none => .single (jsonError .null (-32700) "Parse error: invalid JSON")
  | some raw =>
    match raw with
    | .obj fields =>
      match parseSingleRequest fields with
      | none =>
        .single (jsonError .null (-32700)
          "Parse error: invalid request object")
      | some req => sendJSONRPCResponse (handleSingleRequest env req)
    | .arr v => handleBatch env v
    | _ => .single (jsonError .null (-32700) "Parse error: invalid structure")

/-- The error code carried by a response, when its error field is an
object with a numeric code. -/
def errorCode (r : JSONRPCResponse) : Option Int :=
  match r.error with
  | .obj fields =>
    match lookupField fields "code" with
    | some (.num c) => some c
    | _ => none
  | _ => none

/-- The error message carried by a response. -/
def errorMessage (r : JSONRPCResponse) : Option String :=
  match r.error with
  | .obj fields =>
    match lookupField fields "message" with
    | some (.str s) => some s
    | _ => none
  | _ => none

/-- The response-shape invariant of the spec data model: protocol version
2.0 and exactly one of result and error present (non-nil). -/
def isWellFormed (r : JSONRPCResponse) : Bool :=
  r.jsonrpc == "2.0" && (r.result.isNull != r.error.isNull)

/-! Basic lemmas about the response constructors. -/

theorem errorCode_jsonError (i : Json) (c : Int) (m : String) :
    errorCode (jsonError i c m) = some c := rfl

theorem errorMessage_jsonError (i : Json) (c : Int) (m : String) :
    errorMessage (jsonError i c m) = some m := rfl

theorem jsonError_id (i : Json) (c : Int) (m : String) :
    (jsonError i c m).id = i := rfl

/-! Every branch of every single-call handler echoes the request id into
the response id; the forward path overwrites the upstream id with it. -/

theorem handleGetTransactionInfoByBlockNum_id (env : Env)
    (req : JSONRPCRequest) :
    (handleGetTransactionInfoByBlockNum env req).id = req.id := by
  unfold handleGetTransactionInfoByBlockNum
  repeat' split
  all_goals rfl

theorem handleDebugTransactionTrace_id (env : Env) (req : JSONRPCRequest) :
    (handleDebugTransactionTrace env req).id = req.id := by
  unfold handleDebugTransactionTrace
  repeat' split
  all_goals rfl

theorem forwardAndReturn_id (env : Env) (req : JSONRPCRequest) :
    (forwardAndReturn env req).id = req.id := by
  unfold forwardAndReturn
  repeat' split
  all_goals rfl

theorem handleSingleRequest_id (env : Env) (req : JSONRPCRequest) :
    (handleSingleRequest env req).id = req.id := by
  unfold handleSingleRequest
  split
  · rfl
  · split
    · exact handleGetTransactionInfoByBlockNum_id env req
    · exact handleDebugTransactionTrace_id env req
    · exact forwardAndReturn_id env req

/-! Concrete fixtures used by witnesses and counterexamples. -/

/-- An environment whose outbound calls all fail and whose trace files
are all unreadable. -/
def envDown : Env :=
  { postSingle := fun _ => .transportErr "down",
    postBatch := fun _ => .transportErr "down",
    restPost := fun _ => .transportErr "down",
    readFile := fun _ => .readErr }

/-- A decoded request for an unrecognized method. -/
def reqFoo1 : JSONRPCRequest :=
  { jsonrpc := "2.0", method := "foo", params := [], id := Json.num 1 }

/-- A decoded trace request for transaction t. -/
def reqTrace1 : JSONRPCRequest :=
  { jsonrpc := "2.0", method := "eth_debugTransactionTrace",
    params := [Json.str "t"], id := Json.num 1 }

/-- C3: for every decoded batch containing at least two distinct method
names, no executor is invoked (the result does not depend on the
environment of oracles) and the output is one error Response per original
Call, in input order, each carrying that Call's id with code -32601 and
message Mixed methods not supported. -/
theorem mixed_method_batch_uniform_error (env : Env) (v : List Json)
    (r0 : JSONRPCRequest) (rest : List JSONRPCRequest)
    (hparse : parseBatchRequests v = (r0 :: rest, []))
    (hmixed : ∃ r ∈ r0 :: rest, r.method ≠ r0.method) :
    handleJSONRPC env (some (Json.arr v)) =
      HttpOut.batch ((r0 :: rest).map
        (fun r => jsonError r.id (-32601) "Mixed methods not supported")) := by
  have hall : ((r0 :: rest).all (fun r => r.method == r0.method)) = false := by
    rcases hmixed with ⟨r, hr, hne⟩
    exact List.all_eq_false.mpr ⟨r, hr, by simpa using hne⟩
  have hv : v.isEmpty = false := by
    cases v with
    | nil => simp [parseBatchRequests, parseBatchLoop] at hparse
    | cons a as => rfl
  simp only [handleJSONRPC, handleBatch, hparse, hv, Bool.false_eq_true,
    if_false, List.isEmpty_nil, not_true, hall, sendBatchResponse,
    createErrorResponsesForBatch]

/-- Witness for C3 at a two-element batch with methods foo and bar. -/
theorem mixed_method_batch_uniform_error_witness :
    handleJSONRPC envDown
      (some (Json.arr
        [Json.obj [("jsonrpc", Json.str "2.0"), ("method", Json.str "foo"),
                   ("id", Json.num 1)],
         Json.obj [("jsonrpc", Json.str "2.0"), ("method", Json.str "bar"),
                   ("id", Json.num 2)]])) =
      HttpOut.batch
        [jsonError (Json.num 1) (-32601) "Mixed methods not supported",
         jsonError (Json.num 2) (-32601) "Mixed methods not supported"] := by
  have h := mixed_method_batch_uniform_error envDown
    [Json.obj [("jsonrpc", Json.str "2.0"), ("method", Json.str "foo"),
               ("id", Json.num 1)],
     Json.obj [("jsonrpc", Json.str "2.0"), ("method", Json.str "bar"),
               ("id", Json.num 2)]]
    { jsonrpc := "2.0", method := "foo", params := [], id := Json.num 1 }
    [{ jsonrpc := "2.0", method := "bar", params := [], id := Json.num 2 }]
    rfl
    ⟨{ jsonrpc := "2.0", method := "bar", params := [], id := Json.num 2 },
      by simp, by simp⟩
  simpa using h

/-- C4: the batch trace executor is the element-wise map of the
single-call trace handler, so the outcome at each index depends only on
the Call at that index and its own trace file; in particular a Call whose
trace file is unreadable yields the internal error -32603 at exactly its
own slot. -/
theorem batch_trace_elementwise (env : Env) (reqs : List JSONRPCRequest) :
    handleBatchDebugTransactionTrace env reqs =
      reqs.map (handleDebugTransactionTrace env) ∧
    (∀ req p ps txId, req.params = p :: ps →
      unmarshalGoString p = some txId →
      env.readFile (tracePath txId) = .readErr →
      handleDebugTransactionTrace env req =
        jsonError req.id (-32603) "cannot read trace file") := by
  constructor
  · rfl
  · intro req p ps txId hp hs hf
    unfold handleDebugTransactionTrace
    rw [hp]
    simp only [hs, hf]

/-- Witness for C4: a one-element batch whose trace file is unreadable
maps to exactly the -32603 error. -/
theorem batch_trace_elementwise_witness :
    handleBatchDebugTransactionTrace envDown [reqTrace1] =
      [jsonError (Json.num 1) (-32603) "cannot read trace file"] := by
  have h := batch_trace_elementwise envDown [reqTrace1]
  rw [h.1, List.map_cons, List.map_nil,
    h.2 reqTrace1 (Json.str "t") [] "t" rfl rfl rfl]
  rfl

/-- C5: when the upstream reply to a forwarded single Call decodes as a
Response, the caller receives that Response with its id overwritten by
the original Call's id and every other field unchanged. -/
theorem forward_single_overwrites_id (env : Env) (req : JSONRPCRequest)
    (body : Option Json) (r : JSONRPCResponse)
    (hpost : env.postSingle req = .reply body)
    (hdec : decodeResponseBody body = some r) :
    forwardAndReturn env req = { r with id := req.id } := by
  unfold forwardAndReturn
  rw [hpost]
  simp only [hdec]

/-- An environment whose single-forward upstream replies with a response
carrying the mismatched id 99. -/
def envReply99 : Env :=
  { envDown with
    postSingle := fun _ => .reply (some (Json.obj
      [("jsonrpc", Json.str "2.0"), ("id", Json.num 99),
       ("result", Json.num 7)])) }

/-- Witness for C5: the upstream's mismatched id 99 is overwritten by the
caller's id 1 while the result is kept. -/
theorem forward_single_overwrites_id_witness :
    forwardAndReturn envReply99 reqFoo1 =
      { jsonrpc := "2.0", id := Json.num 1, result := Json.num 7,
        error := Json.null } := by
  exact forward_single_overwrites_id envReply99 reqFoo1
    (some (Json.obj [("jsonrpc", Json.str "2.0"), ("id", Json.num 99),
      ("result", Json.num 7)]))
    { jsonrpc := "2.0", id := Json.num 99, result := Json.num 7,
      error := Json.null }
    rfl rfl

/-- Appending a member to a JSON object makes it the last occurrence, so
the Go-style lookup prefers it. -/
theorem lookupField_append_single (gs : List (String × Json)) (k0 : String)
    (v0 : Json) (key : String) :
    lookupField (gs ++ [(k0, v0)]) key =
      if k0 = key then some v0 else lookupField gs key := by
  induction gs with
  | nil => simp [lookupField]
  | cons p ps ih =>
    obtain ⟨k, v⟩ := p
    rw [List.cons_append, lookupField, ih, lookupField]
    by_cases hk : k0 = key
    · simp [hk]
    · simp [hk]

/-- C10: a single Call whose decoded id is null produces no response body
at all, even when handling produced an error Response; and appending an
explicit null id member to an object that has none does not change how it
decodes, so an explicit null id is indistinguishable from a missing
one. -/
theorem null_id_single_call_suppressed (env : Env)
    (fields : List (String × Json)) (req : JSONRPCRequest)
    (hdec : parseSingleRequest fields = some req)
    (hid : req.id = Json.null) :
    handleJSONRPC env (some (Json.obj fields)) = HttpOut.empty ∧
    ∀ gs : List (String × Json), lookupField gs "id" = none →
      decodeRequest (Json.obj (gs ++ [("id", Json.null)])) =
        decodeRequest (Json.obj gs) := by
  constructor
  · simp only [handleJSONRPC, hdec, sendJSONRPCResponse]
    rw [handleSingleRequest_id, hid]
    rfl
  · intro gs hgs
    simp only [decodeRequest, unmarshalStringField, unmarshalParamsField,
      interfaceField, lookupField_append_single, hgs]
    simp

/-- Witness for C10: an explicitly null id with an invalid protocol
version yields an empty body even though handling errored, and decodes
the same as an absent id. -/
theorem null_id_single_call_suppressed_witness :
    handleJSONRPC envDown
      (some (Json.obj [("jsonrpc", Json.str "1.0"), ("id", Json.null)])) =
      HttpOut.empty ∧
    decodeRequest (Json.obj [("jsonrpc", Json.str "1.0"),
        ("id", Json.null)]) =
      decodeRequest (Json.obj [("jsonrpc", Json.str "1.0")]) := by
  have h := null_id_single_call_suppressed envDown
    [("jsonrpc", Json.str "1.0"), ("id", Json.null)]
    { jsonrpc := "1.0", method := "", params := [], id := Json.null }
    rfl rfl
  exact ⟨h.1, h.2 [("jsonrpc", Json.str "1.0")] rfl⟩

/-- An environment where every trace file exists and holds the JSON
number 42. -/
def envTrace42 : Env :=
  { envDown with readFile := fun _ => .content (some (Json.num 42)) }

/-- C8 counterexample: a batch element with protocol version 1.0 is
executed (its trace file is read and its contents returned) instead of
being rejected with the Invalid request error -32600 the claim
promises. -/
theorem batch_version_not_checked :
    handleJSONRPC envTrace42 (some (Json.arr
      [Json.obj [("jsonrpc", Json.str "1.0"),
                 ("method", Json.str "eth_debugTransactionTrace"),
                 ("params", Json.arr [Json.str "t"]),
                 ("id", Json.num 1)]])) =
      HttpOut.batch [{ jsonrpc := "2.0", id := Json.num 1,
                       result := Json.num 42, error := Json.null }] ∧
    errorCode { jsonrpc := "2.0", id := Json.num 1, result := Json.num 42,
                error := Json.null } ≠ some (-32600) := by
  refine ⟨rfl, ?_⟩
  simp [errorCode]

/-- C8 amended: a single Call whose protocol version is not 2.0 is
rejected with -32600 before any executor runs; batch elements are
executed without any version check. -/
theorem single_version_checked (env : Env) (req : JSONRPCRequest)
    (h : req.jsonrpc ≠ "2.0") :
    handleSingleRequest env req =
      jsonError req.id (-32600) "Invalid Request" := by
  unfold handleSingleRequest
  simp [h]

/-- Witness for C8 at protocol version 1.0. -/
theorem single_version_checked_witness :
    handleSingleRequest envDown
      { jsonrpc := "1.0", method := "foo", params := [], id := Json.num 1 } =
      jsonError (Json.num 1) (-32600) "Invalid Request" := by
  exact single_version_checked envDown
    { jsonrpc := "1.0", method := "foo", params := [], id := Json.num 1 }
    (by decide)

/-- The parse-error Response produced for each undecodable batch
element (src/main.go lines 153-160). -/
def batchParseError : JSONRPCResponse :=
  { jsonrpc := "2.0", id := Json.null, result := .null,
    error := Json.obj [("code", Json.num (-32700)),
      ("message", Json.str "Parse error: invalid JSON in batch")] }

/-- The error list built by the batch parse loop is one copy of the
parse-error Response per element that failed to decode. -/
theorem parseBatchLoop_snd (v : List Json) :
    (parseBatchLoop v).2 =
      List.replicate (v.countP (fun e => (decodeRequest e).isNone))
        batchParseError := by
  induction v with
  | nil => rfl
  | cons e es ih =>
    cases hd : decodeRequest e with
    | some req =>
      simp only [parseBatchLoop, hd, List.countP_cons, Option.isNone_some,
        Bool.false_eq_true, if_false]
      simpa using ih
    | none =>
      simp only [parseBatchLoop, hd, List.countP_cons, Option.isNone_none,
        if_true]
      rw [List.replicate_succ, ← ih]
      rfl

/-- When no batch element fails to decode, the parse loop yields one
request per input element. -/
theorem parseBatchLoop_fst_length (v : List Json)
    (h : (parseBatchLoop v).2 = []) :
    (parseBatchLoop v).1.length = v.length := by
  induction v with
  | nil => rfl
  | cons e es ih =>
    cases hd : decodeRequest e with
    | some req =>
      simp only [parseBatchLoop, hd] at h ⊢
      simp [ih h]
    | none =>
      simp only [parseBatchLoop, hd] at h
      simp at h

/-- C1 amended: when any batch element fails to decode, the whole output
is exactly the parse-error list: one -32700 Response with a null id per
failing element, so its length is the number of failing elements (not
the input batch length), and no successfully decoded element contributes
any Response. -/
theorem batch_decode_failure_all_or_nothing (env : Env) (v : List Json)
    (h : (parseBatchLoop v).2 ≠ []) :
    handleJSONRPC env (some (Json.arr v)) =
      HttpOut.batch (parseBatchLoop v).2 ∧
    (parseBatchLoop v).2 =
      List.replicate (v.countP (fun e => (decodeRequest e).isNone))
        batchParseError ∧
    errorCode batchParseError = some (-32700) ∧
    batchParseError.id = Json.null := by
  have hv : v.isEmpty = false := by
    cases v with
    | nil => simp [parseBatchLoop] at h
    | cons a as => rfl
  have hne : (parseBatchLoop v).2.isEmpty = false := by
    cases hh : (parseBatchLoop v).2 with
    | nil => exact absurd hh h
    | cons a as => rfl
  refine ⟨?_, parseBatchLoop_snd v, rfl, rfl⟩
  simp [handleJSONRPC, handleBatch, parseBatchRequests, hv, hne,
    sendBatchResponse]

/-- A batch element that decodes successfully, method foo, id 1. -/
def goodFooObj : Json :=
  Json.obj [("jsonrpc", Json.str "2.0"), ("method", Json.str "foo"),
            ("id", Json.num 1)]

/-- A batch element that decodes successfully, method foo, id 2. -/
def goodFooObj2 : Json :=
  Json.obj [("jsonrpc", Json.str "2.0"), ("method", Json.str "foo"),
            ("id", Json.num 2)]

/-- C1 counterexample: in a two-element batch whose second element fails
to decode, the output is a single parse-error Response, not one Response
per original batch element as the claim states. -/
theorem batch_decode_failure_not_input_length :
    handleJSONRPC envDown (some (Json.arr [goodFooObj, Json.num 5])) =
      HttpOut.batch [batchParseError] ∧
    [batchParseError].length = 1 ∧
    [goodFooObj, Json.num 5].length = 2 ∧
    (1 : Nat) ≠ 2 := by
  exact ⟨rfl, rfl, rfl, by decide⟩

/-- Witness for C1 (amended) at the same two-element batch. -/
theorem batch_decode_failure_all_or_nothing_witness :
    handleJSONRPC envDown (some (Json.arr [goodFooObj, Json.num 5])) =
      HttpOut.batch (parseBatchLoop [goodFooObj, Json.num 5]).2 ∧
    (parseBatchLoop [goodFooObj, Json.num 5]).2 =
      List.replicate 1 batchParseError := by
  have h := batch_decode_failure_all_or_nothing envDown
    [goodFooObj, Json.num 5] (by exact List.cons_ne_nil _ _)
  exact ⟨h.1, h.2.1⟩

/-- C2 amended: for a decoded batch, the output is an element-wise map
over the decoded requests (same count, index-aligned) whenever the batch
is routed to one of the two local executors, is rejected for mixed
methods, or hits a transport error on the forward path; only a forward
batch whose upstream reply decodes does the proxy hand back with a length
it does not control. -/
theorem batch_count_alignment (env : Env) (v : List Json)
    (r0 : JSONRPCRequest) (rest : List JSONRPCRequest)
    (hparse : parseBatchRequests v = (r0 :: rest, []))
    (hcase : r0.method = "debug_traceBlockByHash" ∨
      r0.method = "eth_debugTransactionTrace" ∨
      ((r0 :: rest).all (fun r => r.method == r0.method)) = false ∨
      ∃ e, env.postBatch v = .transportErr e) :
    ∃ f : JSONRPCRequest → JSONRPCResponse,
      handleJSONRPC env (some (Json.arr v)) =
        HttpOut.batch ((r0 :: rest).map f) ∧
      (r0 :: rest).length = v.length := by
  have hsplit : (parseBatchLoop v).2 = [] ∧
      (parseBatchLoop v).1 = r0 :: rest := by
    by_cases hE : (parseBatchLoop v).2.isEmpty = true
    · have h2 := hparse
      simp [parseBatchRequests, hE] at h2
      exact ⟨List.isEmpty_iff.mp hE, h2⟩
    · have h2 := hparse
      simp [parseBatchRequests, hE] at h2
  have hlen : (r0 :: rest).length = v.length := by
    rw [← hsplit.2]
    exact parseBatchLoop_fst_length v hsplit.1
  have hv : v.isEmpty = false := by
    cases v with
    | nil => simp [parseBatchLoop] at hsplit
    | cons a as => rfl
  simp only [handleJSONRPC, handleBatch, hparse, hv, Bool.false_eq_true,
    if_false, List.isEmpty_nil, not_true, sendBatchResponse]
  by_cases hall : ((r0 :: rest).all (fun r => r.method == r0.method)) = true
  · simp only [hall, if_true]
    split
    · exact ⟨handleGetTransactionInfoByBlockNum env, rfl, hlen⟩
    · exact ⟨traceSlot env, rfl, hlen⟩
    · rcases hcase with h1 | h2 | h3 | ⟨e, he⟩
      · simp_all
      · simp_all
      · rw [hall] at h3; exact absurd h3 (by simp)
      · refine ⟨fun r => jsonError r.id (-32603) ("Internal error: " ++ e),
          ?_, hlen⟩
        simp [forwardBatchToJSONRPC, he, createErrorResponsesForBatch]
  · simp only [Bool.not_eq_true] at hall
    simp only [hall, Bool.false_eq_true, if_false]
    exact ⟨fun r => jsonError r.id (-32601) "Mixed methods not supported",
      rfl, hlen⟩

/-- An environment whose batch-forward upstream replies with a single
response object carrying id 7. -/
def envBatchSingleReply : Env :=
  { envDown with postBatch := fun _ => .reply (some (Json.obj
      [("jsonrpc", Json.str "2.0"), ("id", Json.num 7),
       ("result", Json.num 1)])) }

/-- C2 counterexample: a decoded two-element batch on the forward path,
whose upstream reply decodes as a single Response object, produces a
one-element output, so the count is not preserved. -/
theorem forward_batch_length_not_preserved :
    handleJSONRPC envBatchSingleReply
      (some (Json.arr [goodFooObj, goodFooObj2])) =
      HttpOut.batch [{ jsonrpc := "2.0", id := Json.num 7,
                       result := Json.num 1, error := Json.null }] ∧
    [({ jsonrpc := "2.0", id := Json.num 7, result := Json.num 1,
        error := Json.null } : JSONRPCResponse)].length ≠
      [goodFooObj, goodFooObj2].length := by
  exact ⟨rfl, by decide⟩

/-- Witness for C2 (amended) at a two-element local-executor batch with
unreadable trace files. -/
theorem batch_count_alignment_witness :
    ∃ f : JSONRPCRequest → JSONRPCResponse,
      handleJSONRPC envDown
        (some (Json.arr
          [Json.obj [("jsonrpc", Json.str "2.0"),
                     ("method", Json.str "eth_debugTransactionTrace"),
                     ("params", Json.arr [Json.str "t"]),
                     ("id", Json.num 1)],
           Json.obj [("jsonrpc", Json.str "2.0"),
                     ("method", Json.str "eth_debugTransactionTrace"),
                     ("params", Json.arr [Json.str "u"]),
                     ("id", Json.num 2)]])) =
        HttpOut.batch
          ([reqTrace1,
            { jsonrpc := "2.0", method := "eth_debugTransactionTrace",
              params := [Json.str "u"], id := Json.num 2 }].map f) ∧
      ([reqTrace1,
        { jsonrpc := "2.0", method := "eth_debugTransactionTrace",
          params := [Json.str "u"], id := Json.num 2 }] :
          List JSONRPCRequest).length = 2 := by
  exact batch_count_alignment envDown
    [Json.obj [("jsonrpc", Json.str "2.0"),
               ("method", Json.str "eth_debugTransactionTrace"),
               ("params", Json.arr [Json.str "t"]), ("id", Json.num 1)],
     Json.obj [("jsonrpc", Json.str "2.0"),
               ("method", Json.str "eth_debugTransactionTrace"),
               ("params", Json.arr [Json.str "u"]), ("id", Json.num 2)]]
    reqTrace1
    [{ jsonrpc := "2.0", method := "eth_debugTransactionTrace",
       params := [Json.str "u"], id := Json.num 2 }]
    rfl (Or.inr (Or.inl rfl))

/-- An environment whose batch-forward upstream replies with a single
response object that has no id. -/
def envBatchNoIdReply : Env :=
  { envDown with postBatch := fun _ => .reply (some (Json.obj
      [("jsonrpc", Json.str "2.0"), ("result", Json.num 1)])) }

/-- C6 counterexample: an upstream batch reply that does not decode as an
array but does decode as a single Response object is nevertheless not
returned as a one-item batch when its id is null; every original Call
receives -32603 instead, so the sole output element is an error while the
decoded reply object is not. -/
theorem forward_batch_null_id_single_reply_rejected :
    decodeResponseArray (some (Json.obj
      [("jsonrpc", Json.str "2.0"), ("result", Json.num 1)])) = none ∧
    decodeResponseBody (some (Json.obj
      [("jsonrpc", Json.str "2.0"), ("result", Json.num 1)])) =
      some { jsonrpc := "2.0", id := Json.null, result := Json.num 1,
             error := Json.null } ∧
    forwardBatchToJSONRPC envBatchNoIdReply [reqFoo1] [goodFooObj] =
      [jsonError (Json.num 1) (-32603)
        "Invalid response from forwarded service"] ∧
    (jsonError (Json.num 1) (-32603)
        "Invalid response from forwarded service").error.isNull = false ∧
    ({ jsonrpc := "2.0", id := Json.null, result := Json.num 1,
       error := Json.null } : JSONRPCResponse).error.isNull = true := by
  exact ⟨rfl, rfl, rfl, rfl, rfl⟩

/-- C6 amended: on a forwarded batch whose upstream reply does not decode
as an array of Responses, a reply decoding as a single Response object is
returned as the sole element of a one-item batch only when its id is
non-null; otherwise, or when the reply decodes as neither, every original
Call receives an internal error -32603 Response carrying its own id. -/
theorem forward_batch_reply_shapes (env : Env)
    (reqs : List JSONRPCRequest) (arr : List Json) (body : Option Json)
    (hpost : env.postBatch arr = .reply body)
    (harr : decodeResponseArray body = none) :
    (∀ r, decodeResponseBody body = some r → r.id.isNull = false →
      forwardBatchToJSONRPC env reqs arr = [r]) ∧
    (∀ r, decodeResponseBody body = some r → r.id.isNull = true →
      forwardBatchToJSONRPC env reqs arr =
        reqs.map (fun q => jsonError q.id (-32603)
          "Invalid response from forwarded service")) ∧
    (decodeResponseBody body = none →
      forwardBatchToJSONRPC env reqs arr =
        reqs.map (fun q => jsonError q.id (-32603)
          "Invalid response from forwarded service")) := by
  refine ⟨?_, ?_, ?_⟩
  · intro r hr hid
    unfold forwardBatchToJSONRPC
    rw [hpost]
    simp [harr, hr, hid]
  · intro r hr hid
    unfold forwardBatchToJSONRPC
    rw [hpost]
    simp [harr, hr, hid, createErrorResponsesForBatch]
  · intro hr
    unfold forwardBatchToJSONRPC
    rw [hpost]
    simp [harr, hr, createErrorResponsesForBatch]

/-- Witness for C6 (amended): a single-object reply with the non-null id
7 becomes the sole element of a one-item batch. -/
theorem forward_batch_reply_shapes_witness :
    forwardBatchToJSONRPC envBatchSingleReply [reqFoo1] [goodFooObj] =
      [{ jsonrpc := "2.0", id := Json.num 7, result := Json.num 1,
         error := Json.null }] := by
  exact (forward_batch_reply_shapes envBatchSingleReply [reqFoo1]
    [goodFooObj]
    (some (Json.obj [("jsonrpc", Json.str "2.0"), ("id", Json.num 7),
      ("result", Json.num 1)]))
    rfl rfl).1
    { jsonrpc := "2.0", id := Json.num 7, result := Json.num 1,
      error := Json.null }
    rfl rfl

/-- The model-level meaning of an integer-interpretable first parameter:
Go json.Unmarshal into an int64 fails exactly on values that are neither
a number nor null (null being a silent no-op). -/
theorem unmarshalInt64_eq_none_iff (p : Json) :
    unmarshalInt64 p = none ↔ (p.isNull = false ∧ p.isNum = false) := by
  cases p <;> simp [unmarshalInt64, Json.isNull, Json.isNum]

/-- An environment whose REST endpoint returns a one-record array whose
record has no fields at all. -/
def envRestEmptyRecord : Env :=
  { envDown with
    restPost := fun _ => .reply (some (Json.arr [Json.obj []])) }

/-- A REST-translator call whose first parameter is JSON null. -/
def reqBlockNull : JSONRPCRequest :=
  { jsonrpc := "2.0", method := "debug_traceBlockByHash",
    params := [Json.null], id := Json.num 1 }

/-- The zero-filled re-encoded response the REST Translator produces for
a reply holding one empty record. -/
def zeroFilledInfoResp : JSONRPCResponse :=
  { jsonrpc := "2.0", id := Json.num 1,
    result := Json.arr [Json.obj
      [("internal_transactions", Json.null), ("id", Json.str ""),
       ("blockNumber", Json.num 0), ("transactionHash", Json.str "")]],
    error := Json.null }

/-- C7 counterexample: a null first parameter is not an integer, yet the
call is not rejected with -32602 (the code silently reads block number
0), and the successful result is not the decoded REST array verbatim:
the empty record comes back zero-filled with the four schema fields. -/
theorem rest_translator_not_verbatim :
    handleGetTransactionInfoByBlockNum envRestEmptyRecord reqBlockNull =
      zeroFilledInfoResp ∧
    errorCode zeroFilledInfoResp = none ∧
    Json.null.isNum = false ∧
    ¬ zeroFilledInfoResp.result = Json.arr [Json.obj []] := by
  refine ⟨rfl, rfl, rfl, ?_⟩
  simp [zeroFilledInfoResp]

/-- C7 amended: the REST Translator returns -32602 when params are empty
or the first parameter is a non-null non-integer, never when the first
parameter is integer-interpretable (null included, silently read as block
0); on a successful REST exchange the result is the reply array
re-encoded through the four-field transaction-info schema (unknown
fields dropped, missing fields zero-filled), not the raw reply. -/
theorem rest_translator_contract (env : Env) (req : JSONRPCRequest) :
    (req.params = [] →
      handleGetTransactionInfoByBlockNum env req =
        jsonError req.id (-32602) "Invalid params") ∧
    (∀ p ps, req.params = p :: ps → p.isNull = false → p.isNum = false →
      handleGetTransactionInfoByBlockNum env req =
        jsonError req.id (-32602)
          "Invalid params: must be integer block number") ∧
    (∀ p ps n, req.params = p :: ps → unmarshalInt64 p = some n →
      errorCode (handleGetTransactionInfoByBlockNum env req) ≠
        some (-32602)) ∧
    (∀ p ps n body infos, req.params = p :: ps →
      unmarshalInt64 p = some n → env.restPost n = .reply body →
      decodeTronTxInfoArray body = some infos →
      handleGetTransactionInfoByBlockNum env req =
        { jsonrpc := "2.0", id := req.id,
          result := Json.arr (infos.map encodeTronTxInfo),
          error := Json.null }) := by
  refine ⟨?_, ?_, ?_, ?_⟩
  · intro hp
    unfold handleGetTransactionInfoByBlockNum
    rw [hp]
  · intro p ps hp hnull hnum
    have hm : unmarshalInt64 p = none :=
      (unmarshalInt64_eq_none_iff p).mpr ⟨hnull, hnum⟩
    unfold handleGetTransactionInfoByBlockNum
    rw [hp]
    simp [hm]
  · intro p ps n hp hm
    unfold handleGetTransactionInfoByBlockNum
    rw [hp]
    simp only [hm]
    cases hpost : env.restPost n with
    | transportErr e => simp [errorCode_jsonError]
    | reply body =>
      cases hdec : decodeTronTxInfoArray body with
      | none => simp [hdec, errorCode_jsonError]
      | some infos => simp [hdec, errorCode]
  · intro p ps n body infos hp hm hpost hdec
    unfold handleGetTransactionInfoByBlockNum
    rw [hp]
    simp only [hm, hpost, hdec]

/-- Witness for C7 (amended) covering the empty-params error, the
non-integer error, and a successful pass through the schema re-encode. -/
theorem rest_translator_contract_witness :
    handleGetTransactionInfoByBlockNum envRestEmptyRecord
      { jsonrpc := "2.0", method := "debug_traceBlockByHash",
        params := [], id := Json.num 1 } =
      jsonError (Json.num 1) (-32602) "Invalid params" ∧
    handleGetTransactionInfoByBlockNum envRestEmptyRecord
      { jsonrpc := "2.0", method := "debug_traceBlockByHash",
        params := [Json.str "x"], id := Json.num 1 } =
      jsonError (Json.num 1) (-32602)
        "Invalid params: must be integer block number" ∧
    handleGetTransactionInfoByBlockNum envRestEmptyRecord
      { jsonrpc := "2.0", method := "debug_traceBlockByHash",
        params := [Json.num 5], id := Json.num 1 } =
      { jsonrpc := "2.0", id := Json.num 1,
        result := Json.arr
          ([{ internalTransactions := none, id := "", blockNumber := 0,
              transactionHash := "" }].map encodeTronTxInfo),
        error := Json.null } := by
  refine ⟨?_, ?_, ?_⟩
  · exact (rest_translator_contract envRestEmptyRecord
      { jsonrpc := "2.0", method := "debug_traceBlockByHash",
        params := [], id := Json.num 1 }).1 rfl
  · exact (rest_translator_contract envRestEmptyRecord
      { jsonrpc := "2.0", method := "debug_traceBlockByHash",
        params := [Json.str "x"], id := Json.num 1 }).2.1
      (Json.str "x") [] rfl rfl rfl
  · exact (rest_translator_contract envRestEmptyRecord
      { jsonrpc := "2.0", method := "debug_traceBlockByHash",
        params := [Json.num 5], id := Json.num 1 }).2.2.2
      (Json.num 5) [] 5 (some (Json.arr [Json.obj []]))
      [{ internalTransactions := none, id := "", blockNumber := 0,
         transactionHash := "" }]
      rfl rfl rfl rfl

/-- An environment whose single-forward upstream replies with a bare
response object carrying neither result nor error. -/
def envBareReply : Env :=
  { envDown with postSingle := fun _ => .reply (some (Json.obj
      [("jsonrpc", Json.str "2.0"), ("id", Json.num 5)])) }

/-- C9 counterexample: a forwarded upstream reply with neither result nor
error decodes fine and is emitted as-is (only the id is overwritten), so
the dispatcher emits a Response violating the exactly-one-of-result-and-
error invariant. -/
theorem forwarded_response_not_well_formed :
    handleSingleRequest envBareReply reqFoo1 =
      { jsonrpc := "2.0", id := Json.num 1, result := Json.null,
        error := Json.null } ∧
    isWellFormed
      { jsonrpc := "2.0", id := Json.num 1, result := Json.null,
        error := Json.null } = false := by
  exact ⟨rfl, rfl⟩

/-- C9 amended: every Response the dispatcher constructs itself has
protocol version 2.0 and exactly one of result and error: every error
Response does, every REST Translator Response does, and every trace
Response does as long as no trace file holds the bare JSON null; only
Responses decoded from upstream replies on the forward path are passed
through without this guarantee. -/
theorem locally_built_responses_well_formed (env : Env)
    (req : JSONRPCRequest) (i : Json) (c : Int) (m : String)
    (hnn : ∀ s, env.readFile s ≠ .content (some Json.null)) :
    isWellFormed (jsonError i c m) = true ∧
    isWellFormed (handleGetTransactionInfoByBlockNum env req) = true ∧
    isWellFormed (handleDebugTransactionTrace env req) = true := by
  refine ⟨rfl, ?_, ?_⟩
  · unfold handleGetTransactionInfoByBlockNum
    repeat' split
    all_goals rfl
  · unfold handleDebugTransactionTrace
    cases hp : req.params with
    | nil => rfl
    | cons p ps =>
      cases hs : unmarshalGoString p with
      | none =>
        simp only [hs]
        rfl
      | some txId =>
        cases hf : env.readFile (tracePath txId) with
        | readErr =>
          simp only [hs, hf]
          rfl
        | content ob =>
          cases ob with
          | none =>
            simp only [hs, hf]
            rfl
          | some traceJson =>
            have h5 := hnn (tracePath txId)
            rw [hf] at h5
            have h6 : traceJson.isNull = false := by
              cases traceJson <;> simp_all [Json.isNull]
            simp [hs, hf, isWellFormed, Json.isNull]
            exact h6

/-- Witness for C9 (amended) in an environment whose trace files all hold
the JSON number 42. -/
theorem locally_built_responses_well_formed_witness :
    isWellFormed (jsonError (Json.num 3) (-32000) "oops") = true ∧
    isWellFormed
      (handleGetTransactionInfoByBlockNum envTrace42 reqTrace1) = true ∧
    isWellFormed (handleDebugTransactionTrace envTrace42 reqTrace1) =
      true := by
  exact locally_built_responses_well_formed envTrace42 reqTrace1
    (Json.num 3) (-32000) "oops"
    (fun s => by simp [envTrace42, envDown])

end TronProxy
